import Mathlib

/-!
Verification development for the per-frame window-surface lifecycle and
camera dispatch pipeline of a renderer.

The definitions shallowly embed the two source files:
- `crates/bevy_render/src/view/window/mod.rs`
  (`extract_windows`, `prepare_windows`, `need_surface_configuration`,
  `create_surfaces`)
- `crates/bevy_render/src/render_graph/camera_driver_node.rs`
  (`CameraDriverNode::run`)

Machine integers (`u32`) are modelled as `Nat` (no arithmetic here ever
overflows: only `max`, equality tests and copies occur). Entities and raw
platform handles are opaque `Nat` identifiers. GPU calls are modelled by
explicit inputs (acquisition results) and outputs (lists of performed
reconfigurations, clear passes). Rust `panic!` is modelled as the `error`
branch of `Except RenderPanic`.
-/

namespace BevyRender

/-- Models `wgpu::TextureFormat`, restricted to the constructors relevant to
window surfaces (the formats a surface's capability list can contain in this
code path). -/
inductive TextureFormat where
  | Rgba8Unorm
  | Rgba8UnormSrgb
  | Bgra8Unorm
  | Bgra8UnormSrgb
  | Rgba16Float
deriving DecidableEq, Repr

/-- Models `wgpu::TextureFormat::is_srgb` on the formats above. -/
def TextureFormat.is_srgb : TextureFormat → Bool
  | .Rgba8UnormSrgb => true
  | .Bgra8UnormSrgb => true
  | _ => false

/-- Models `wgpu::TextureFormat::add_srgb_suffix` on the formats above. -/
def TextureFormat.add_srgb_suffix : TextureFormat → TextureFormat
  | .Rgba8Unorm => .Rgba8UnormSrgb
  | .Bgra8Unorm => .Bgra8UnormSrgb
  | f => f

/-- Models `bevy_window::PresentMode`. -/
inductive PresentMode where
  | Fifo
  | FifoRelaxed
  | Mailbox
  | Immediate
  | AutoVsync
  | AutoNoVsync
deriving DecidableEq, Repr

/-- Models `wgpu::PresentMode`. -/
inductive WgpuPresentMode where
  | Fifo
  | FifoRelaxed
  | Mailbox
  | Immediate
  | AutoVsync
  | AutoNoVsync
deriving DecidableEq, Repr

/-- The `match window.present_mode` mapping in `create_surfaces`
(`bevy_window::PresentMode` to `wgpu::PresentMode`, 1:1). -/
def presentModeToWgpu : PresentMode → WgpuPresentMode
  | .Fifo => .Fifo
  | .FifoRelaxed => .FifoRelaxed
  | .Mailbox => .Mailbox
  | .Immediate => .Immediate
  | .AutoVsync => .AutoVsync
  | .AutoNoVsync => .AutoNoVsync

/-- Models `bevy_window::CompositeAlphaMode`. -/
inductive CompositeAlphaMode where
  | Auto
  | Opaque
  | PreMultiplied
  | PostMultiplied
  | Inherit
deriving DecidableEq, Repr

/-- Models `wgpu::CompositeAlphaMode`. -/
inductive WgpuCompositeAlphaMode where
  | Auto
  | Opaque
  | PreMultiplied
  | PostMultiplied
  | Inherit
deriving DecidableEq, Repr

/-- The `match window.alpha_mode` mapping in `create_surfaces`. -/
def alphaModeToWgpu : CompositeAlphaMode → WgpuCompositeAlphaMode
  | .Auto => .Auto
  | .Opaque => .Opaque
  | .PreMultiplied => .PreMultiplied
  | .PostMultiplied => .PostMultiplied
  | .Inherit => .Inherit

/-- Models `wgpu::TextureUsages` as far as this code uses it
(only `RENDER_ATTACHMENT` ever appears). -/
inductive TextureUsages where
  | RENDER_ATTACHMENT
deriving DecidableEq, Repr

/-- Models a `wgpu::SurfaceTexture` frame returned by
`surface.get_current_texture()`: an opaque id plus the texture's format. -/
structure Frame where
  id : Nat
  format : TextureFormat
deriving DecidableEq, Repr

/-- Models `bevy_render::render_resource::TextureView` as created from a
swapchain frame: the frame it views and the view's format. -/
structure TextureView where
  frame : Nat
  format : TextureFormat
deriving DecidableEq, Repr

/-- Models the `ExtractedWindow` struct (the Window State Mirror's per-window
snapshot). `u32` fields are `Nat`; entity and handle are opaque `Nat` ids. -/
structure ExtractedWindow where
  entity : Nat
  handle : Nat
  physical_width : Nat
  physical_height : Nat
  present_mode : PresentMode
  desired_maximum_frame_latency : Option Nat
  swap_chain_texture_view : Option TextureView
  swap_chain_texture : Option Frame
  swap_chain_texture_format : Option TextureFormat
  size_changed : Bool
  present_mode_changed : Bool
  alpha_mode : CompositeAlphaMode
deriving DecidableEq, Repr

/-- Models `ExtractedWindow::set_swapchain_texture`: stores the frame and a
texture view whose format is the frame's format with the sRGB suffix applied. -/
def ExtractedWindow.set_swapchain_texture (w : ExtractedWindow) (frame : Frame) :
    ExtractedWindow :=
  { w with
    swap_chain_texture_view := some ⟨frame.id, frame.format.add_srgb_suffix⟩
    swap_chain_texture := some frame }

/-- The presentation-relevant attributes of a `bevy_window::Window` component,
as read by `extract_windows` this frame. -/
structure Window where
  physical_width : Nat
  physical_height : Nat
  present_mode : PresentMode
  desired_maximum_frame_latency : Option Nat
  composite_alpha_mode : CompositeAlphaMode
deriving DecidableEq, Repr

/-- The `or_insert` default of `extract_windows`: the freshly inserted
`ExtractedWindow` for a window first seen this frame, built from the clamped
current values. -/
def insertedWindow (entity handle : Nat) (window : Window) : ExtractedWindow :=
  { entity := entity
    handle := handle
    physical_width := max window.physical_width 1
    physical_height := max window.physical_height 1
    present_mode := window.present_mode
    desired_maximum_frame_latency := window.desired_maximum_frame_latency
    swap_chain_texture := none
    swap_chain_texture_view := none
    size_changed := false
    swap_chain_texture_format := none
    present_mode_changed := false
    alpha_mode := window.composite_alpha_mode }

/-- Loop body of `extract_windows` for one open window: `prev` is the mirror's
entry from last frame (`none` on first sighting, in which case the `or_insert`
default is used). Mirrors the source statement by statement: clamp sizes,
fetch-or-insert, drop the swapchain texture view, recompute both change flags
against the previously stored values, then overwrite size and present mode
when their flag is set. -/
def extract_window (prev : Option ExtractedWindow) (entity handle : Nat)
    (window : Window) : ExtractedWindow :=
  let new_width := max window.physical_width 1
  let new_height := max window.physical_height 1
  let w0 := prev.getD (insertedWindow entity handle window)
  let w1 := { w0 with swap_chain_texture_view := none }
  let w2 := { w1 with
    size_changed := new_width != w1.physical_width || new_height != w1.physical_height
    present_mode_changed := window.present_mode != w1.present_mode }
  let w3 :=
    if w2.size_changed then
      { w2 with physical_width := new_width, physical_height := new_height }
    else w2
  if w3.present_mode_changed then { w3 with present_mode := window.present_mode }
  else w3

/-- Models `wgpu::SurfaceConfiguration` as built and mutated by
`create_surfaces`. -/
structure SurfaceConfiguration where
  format : TextureFormat
  width : Nat
  height : Nat
  usage : TextureUsages
  present_mode : WgpuPresentMode
  desired_maximum_frame_latency : Nat
  alpha_mode : WgpuCompositeAlphaMode
  view_formats : List TextureFormat
deriving DecidableEq, Repr

/-- Models the `SurfaceData` struct: the GPU surface object (opaque id) plus
its last-applied configuration. -/
structure SurfaceData where
  surface : Nat
  configuration : SurfaceConfiguration
deriving DecidableEq, Repr

/-- Models `wgpu::SurfaceError` as classified by `prepare_windows`. -/
inductive SurfaceError where
  | Outdated
  | Timeout
  | Lost
  | OutOfMemory
  | Other
deriving DecidableEq, Repr

/-- A Rust `panic!` is modelled as this error value in an `Except`. -/
inductive RenderPanic where
  | panicked
deriving DecidableEq, Repr

/-- Result of `prepare_windows`'s loop body for one window: the updated
snapshot, plus the list of configurations applied to the GPU surface via
`configure_surface` during this step (in order). -/
structure PrepareOutcome where
  window : ExtractedWindow
  reconfigures : List SurfaceConfiguration
deriving DecidableEq, Repr

/-- Loop body of `prepare_windows` for one window.

`isLinux` models the `cfg(target_os = "linux")` conditional compilation;
`vendorMatch` models the result of the `may_erroneously_timeout` closure
(whether some enumerated Vulkan adapter's name starts with Radeon, AMD or
Intel). `surface_data` is the Surface Registry entry for this window (`none`
means the `let else` skips the window). `first` is the result of the first
`surface.get_current_texture()` call and `retry` the result of the second
call, which the code performs only on the `Outdated` branch.

Mirrors the source arm by arm: success stores the texture, `Outdated`
reconfigures with the stored configuration and retries once (a failed retry
logs and `continue`s, which skips the trailing format write), `Timeout` on
Linux with a matching vendor is swallowed, and every other error panics.
After the match (when not skipped by `continue`) the configuration's format
is recorded on the snapshot. -/
def prepare_window (isLinux vendorMatch : Bool)
    (surface_data : Option SurfaceData)
    (first retry : Except SurfaceError Frame)
    (window : ExtractedWindow) : Except RenderPanic PrepareOutcome :=
  match surface_data with
  | none => .ok ⟨window, []⟩
  | some sd =>
    match first with
    | .ok frame =>
        .ok ⟨{ window.set_swapchain_texture frame with
                 swap_chain_texture_format := some sd.configuration.format }, []⟩
    | .error .Outdated =>
        match retry with
        | .ok frame =>
            .ok ⟨{ window.set_swapchain_texture frame with
                     swap_chain_texture_format := some sd.configuration.format },
                 [sd.configuration]⟩
        | .error _ => .ok ⟨window, [sd.configuration]⟩
    | .error .Timeout =>
        if isLinux && vendorMatch then
          .ok ⟨{ window with swap_chain_texture_format := some sd.configuration.format }, []⟩
        else .error .panicked
    | .error _ => .error .panicked

/-- Models `need_surface_configuration`: true when some live window has no
completed configuration pass yet, or has `size_changed`, or has
`present_mode_changed`. `configured_windows` models the `HashSet<Entity>` of
the `WindowSurfaces` resource. -/
def need_surface_configuration (windows : List ExtractedWindow)
    (configured_windows : List Nat) : Bool :=
  windows.any fun window =>
    !(configured_windows.contains window.entity)
      || window.size_changed || window.present_mode_changed

/-- The constant `DEFAULT_DESIRED_MAXIMUM_FRAME_LATENCY`. -/
def DEFAULT_DESIRED_MAXIMUM_FRAME_LATENCY : Nat := 2

/-- The format-selection loop of `create_surfaces`: start from the first
supported format and take the first `Rgba8UnormSrgb` or `Bgra8UnormSrgb`
encountered (the only sRGB formats wgpu exposes for surfaces); `none` models
the `expect` panic on an empty supported-format list. -/
def choose_format (formats : List TextureFormat) : Option TextureFormat :=
  match formats.head? with
  | none => none
  | some f0 =>
    some (match formats.find? fun f =>
            f == TextureFormat.Rgba8UnormSrgb || f == TextureFormat.Bgra8UnormSrgb with
          | some f => f
          | none => f0)

/-- The `SurfaceConfiguration` literal built by `create_surfaces` for a fresh
surface, given the chosen format. -/
def build_configuration (format : TextureFormat) (window : ExtractedWindow) :
    SurfaceConfiguration :=
  { format := format
    width := window.physical_width
    height := window.physical_height
    usage := .RENDER_ATTACHMENT
    present_mode := presentModeToWgpu window.present_mode
    desired_maximum_frame_latency :=
      window.desired_maximum_frame_latency.getD DEFAULT_DESIRED_MAXIMUM_FRAME_LATENCY
    alpha_mode := alphaModeToWgpu window.alpha_mode
    view_formats := if !format.is_srgb then [format.add_srgb_suffix] else [] }

/-- The `or_insert_with` closure of `create_surfaces`: create a GPU surface
(opaque id `surface_id`), query its capabilities (`formats`), choose a format
and build and apply the initial configuration. `none` models the `expect`
panic when the supported-format list is empty. -/
def create_surface_data (surface_id : Nat) (formats : List TextureFormat)
    (window : ExtractedWindow) : Option SurfaceData :=
  match choose_format formats with
  | none => none
  | some format => some ⟨surface_id, build_configuration format window⟩

/-- The `surfaces.entry(..).or_insert_with(..)` step of `create_surfaces`
(the Surface Registry's `ensure_surface` contract): look up the window's
entry; when present return it with the map unchanged and zero creations,
otherwise create one (`created = 1`). Returns the updated map, the entry and
the number of GPU surface creations performed. -/
def ensure_surface (surface_id : Nat) (formats : List TextureFormat)
    (surfaces : List (Nat × SurfaceData)) (window : ExtractedWindow) :
    Option (List (Nat × SurfaceData) × SurfaceData × Nat) :=
  match surfaces.lookup window.entity with
  | some data => some (surfaces, data, 0)
  | none =>
    match create_surface_data surface_id formats window with
    | none => none
    | some data => some ((window.entity, data) :: surfaces, data, 1)

/-- The reconfiguration step at the end of `create_surfaces`'s loop body: when
`size_changed || present_mode_changed`, overwrite the stored configuration's
width, height and present mode and reapply it to the GPU surface. The `Bool`
reports whether `configure_surface` was called. -/
def reconfigure_if_changed (window : ExtractedWindow) (data : SurfaceData) :
    SurfaceData × Bool :=
  if window.size_changed || window.present_mode_changed then
    ({ data with configuration :=
        { data.configuration with
            width := window.physical_width
            height := window.physical_height
            present_mode := presentModeToWgpu window.present_mode } }, true)
  else (data, false)

/-- Models `NormalizedRenderTarget` as matched by `CameraDriverNode::run`:
either a window target (carrying the window entity) or any non-window target. -/
inductive NormalizedRenderTarget where
  | Window (entity : Nat)
  | Other
deriving DecidableEq, Repr

/-- Models the fields of `ExtractedCamera` read by `CameraDriverNode::run`. -/
structure ExtractedCamera where
  entity : Nat
  target : Option NormalizedRenderTarget
  render_graph : Nat
deriving DecidableEq, Repr

/-- The `windows.windows.get(&window_entity).is_some_and(..)` test of
`CameraDriverNode::run`: the target window exists in the mirror and has
nonzero width and height. -/
def window_live (windows : List ExtractedWindow) (entity : Nat) : Bool :=
  match windows.find? fun w => w.entity == entity with
  | some w => w.physical_width > 0 && w.physical_height > 0
  | none => false

/-- The camera loop of `CameraDriverNode::run`. `cameras` is the sorted camera
list, each element `none` when `get_manual` fails for that entity (the camera
is skipped). `graph_ok e` models whether `run_sub_graph` succeeds for the
camera with entity `e`; on failure the `?` operator aborts the whole pass.
`acc` accumulates, in order, every insertion into the `camera_windows` set
(kept as a list so that the number of cameras servicing a window is visible).
Returns the final `camera_windows` insertions on success. -/
def dispatch_cameras (windows : List ExtractedWindow) (graph_ok : Nat → Bool) :
    List (Option ExtractedCamera) → List Nat → Except RenderPanic (List Nat)
  | [], acc => .ok acc
  | none :: rest, acc => dispatch_cameras windows graph_ok rest acc
  | some cam :: rest, acc =>
    match cam.target with
    | some (.Window e) =>
      if window_live windows e then
        if graph_ok cam.entity then dispatch_cameras windows graph_ok rest (acc ++ [e])
        else .error .panicked
      else
        dispatch_cameras windows graph_ok rest acc
    | _ =>
      if graph_ok cam.entity then dispatch_cameras windows graph_ok rest acc
      else .error .panicked

/-- One clear-only pass issued by the fallback loop of
`CameraDriverNode::run`: the window entity and the swapchain texture view the
pass's single color attachment clears (the pass has no depth/stencil
attachment). -/
structure ClearPass where
  entity : Nat
  view : TextureView
deriving DecidableEq, Repr

/-- The fallback loop of `CameraDriverNode::run`: for every mirror window not
in `camera_windows` whose swapchain texture view is present, issue one
clear-only pass on that view. -/
def clear_passes (windows : List ExtractedWindow) (camera_windows : List Nat) :
    List ClearPass :=
  windows.filterMap fun w =>
    if camera_windows.contains w.entity then none
    else
      match w.swap_chain_texture_view with
      | none => none
      | some view => some ⟨w.entity, view⟩

/-- `CameraDriverNode::run`: dispatch every camera in sorted order, then issue
the fallback clear passes. Returns the `camera_windows` insertion list and
the clear passes, or the propagated render-graph error. -/
def camera_driver_run (windows : List ExtractedWindow)
    (cameras : List (Option ExtractedCamera)) (graph_ok : Nat → Bool) :
    Except RenderPanic (List Nat × List ClearPass) :=
  match dispatch_cameras windows graph_ok cameras [] with
  | .error e => .error e
  | .ok camera_windows => .ok (camera_windows, clear_passes windows camera_windows)

/-! ### Sample data used by witnesses and counterexamples -/

/-- A sample surviving window holding last frame's acquired texture and view. -/
def wSurvivor : ExtractedWindow :=
  { entity := 0
    handle := 0
    physical_width := 800
    physical_height := 600
    present_mode := .Fifo
    desired_maximum_frame_latency := none
    swap_chain_texture_view := some ⟨5, .Bgra8UnormSrgb⟩
    swap_chain_texture := some ⟨5, .Bgra8UnormSrgb⟩
    swap_chain_texture_format := some .Bgra8UnormSrgb
    size_changed := false
    present_mode_changed := false
    alpha_mode := .Auto }

/-- Sample current-frame window attributes matching `wSurvivor`. -/
def winSame : Window :=
  { physical_width := 800
    physical_height := 600
    present_mode := .Fifo
    desired_maximum_frame_latency := none
    composite_alpha_mode := .Auto }

/-- Registry entry created by `ensure_surface` for `wSurvivor` on surface 3. -/
def sampleSurfaceData : SurfaceData :=
  ⟨3, build_configuration .Bgra8UnormSrgb wSurvivor⟩

/-- The registry after `ensure_surface` first runs for `wSurvivor`. -/
def sampleRegistry : List (Nat × SurfaceData) :=
  [(wSurvivor.entity, sampleSurfaceData)]

/-- The sample window after a resize to 1024x768 flagged by extraction. -/
def wResized : ExtractedWindow :=
  { wSurvivor with physical_width := 1024, physical_height := 768, size_changed := true }

/-- A fresh snapshot (no texture, no recorded format) for the prepare step. -/
def wFresh : ExtractedWindow :=
  { wSurvivor with
      swap_chain_texture_view := none
      swap_chain_texture := none
      swap_chain_texture_format := none }

/-- A mirror window with entity 7 holding an acquired texture view. -/
def wC1 : ExtractedWindow := { wSurvivor with entity := 7 }

/-- A camera targeting window 7. -/
def camA : ExtractedCamera := ⟨100, some (.Window 7), 0⟩

/-- A second camera also targeting window 7. -/
def camB : ExtractedCamera := ⟨101, some (.Window 7), 0⟩

/-! ### Helper lemmas -/

theorem extract_window_size_changed (prev : ExtractedWindow) (e h : Nat)
    (win : Window) :
    (extract_window (some prev) e h win).size_changed =
      (max win.physical_width 1 != prev.physical_width
        || max win.physical_height 1 != prev.physical_height) := by
  unfold extract_window
  dsimp only [Option.getD]
  split <;> split <;> rfl

theorem extract_window_view (prev : ExtractedWindow) (e h : Nat)
    (win : Window) :
    (extract_window (some prev) e h win).swap_chain_texture_view = none := by
  unfold extract_window
  dsimp only [Option.getD]
  split <;> split <;> rfl

theorem extract_window_texture (prev : ExtractedWindow) (e h : Nat)
    (win : Window) :
    (extract_window (some prev) e h win).swap_chain_texture =
      prev.swap_chain_texture := by
  unfold extract_window
  dsimp only [Option.getD]
  split <;> split <;> rfl

theorem extract_window_none_size_changed (e h : Nat) (win : Window) :
    (extract_window none e h win).size_changed = false := by
  unfold extract_window
  dsimp only [Option.getD]
  split <;> split <;> simp_all [insertedWindow]

/-! ### Claim theorems -/

/-- C4: after extraction, a surviving window's `size_changed` is true iff this
frame's clamped physical size differs from the size stored last frame; on a
first sighting the `or_insert` default is built from the clamped requested
size itself (so default equals requested) and `size_changed` is false. -/
theorem size_changed_iff_size_differs :
    (∀ (prev : ExtractedWindow) (e h : Nat) (win : Window),
      ((extract_window (some prev) e h win).size_changed = true ↔
        (max win.physical_width 1 ≠ prev.physical_width
          ∨ max win.physical_height 1 ≠ prev.physical_height)))
    ∧ (∀ (e h : Nat) (win : Window),
        (extract_window none e h win).size_changed = false
        ∧ (insertedWindow e h win).physical_width = max win.physical_width 1
        ∧ (insertedWindow e h win).physical_height = max win.physical_height 1) := by
  constructor
  · intro prev e h win
    rw [extract_window_size_changed]
    simp [bne_iff_ne]
  · intro e h win
    exact ⟨extract_window_none_size_changed e h win, rfl, rfl⟩



/-- C5 counterexample: for a surviving window that holds last frame's acquired
texture, extraction does not leave both stored fields `none`: only
`swap_chain_texture_view` is set to `none`, while `swap_chain_texture` keeps
last frame's frame. -/
theorem extract_clears_both_counterexample :
    ¬((extract_window (some wSurvivor) 0 0 winSame).swap_chain_texture = none
      ∧ (extract_window (some wSurvivor) 0 0 winSame).swap_chain_texture_view
          = none) := by
  decide

/-- C5 amended: after extraction every surviving window's swapchain texture
view is `none`, but its `swap_chain_texture` field is left untouched (it is
cleared by other consumers, not by extraction). -/
theorem extract_clears_view_only (prev : ExtractedWindow) (e h : Nat)
    (win : Window) :
    (extract_window (some prev) e h win).swap_chain_texture_view = none
    ∧ (extract_window (some prev) e h win).swap_chain_texture
        = prev.swap_chain_texture :=
  ⟨extract_window_view prev e h win, extract_window_texture prev e h win⟩

/-- C8: `need_surface_configuration` returns true iff some window of the
mirror is absent from the configured set, or has `size_changed`, or has
`present_mode_changed`. -/
theorem need_surface_configuration_iff (windows : List ExtractedWindow)
    (configured_windows : List Nat) :
    need_surface_configuration windows configured_windows = true ↔
      ∃ w ∈ windows,
        configured_windows.contains w.entity = false
        ∨ w.size_changed = true ∨ w.present_mode_changed = true := by
  simp [need_surface_configuration, List.any_eq_true, or_assoc]

theorem surface_format_pred_is_srgb (f : TextureFormat) :
    (f == TextureFormat.Rgba8UnormSrgb || f == TextureFormat.Bgra8UnormSrgb)
      = f.is_srgb := by
  cases f <;> rfl

/-- C7: on an empty supported-format list the choice fails (models the fatal
`expect`); on a nonempty list the chosen format is the first sRGB-encoded
supported format when one exists, else the first supported format; and on
`[Rgba8Unorm, Bgra8UnormSrgb]` the choice is `Bgra8UnormSrgb`. -/
theorem choose_format_prefers_srgb :
    choose_format [] = none
    ∧ (∀ (f0 : TextureFormat) (fs : List TextureFormat),
        choose_format (f0 :: fs) =
          some (match (f0 :: fs).find? (fun f => f.is_srgb) with
                | some f => f
                | none => f0))
    ∧ choose_format [.Rgba8Unorm, .Bgra8UnormSrgb] = some .Bgra8UnormSrgb := by
  refine ⟨rfl, ?_, by decide⟩
  intro f0 fs
  have hpred :
      (fun f : TextureFormat =>
        f == TextureFormat.Rgba8UnormSrgb || f == TextureFormat.Bgra8UnormSrgb)
        = fun f => f.is_srgb := by
    funext f
    exact surface_format_pred_is_srgb f
  simp [choose_format, hpred]

/-- C9: `ensure_surface` is idempotent. Any successful call performs at most
one GPU surface creation (exactly one when no entry existed), and running it
again on the resulting registry performs zero creations and returns the same
entry with the registry unchanged. -/
theorem ensure_surface_idempotent (sid sid2 : Nat)
    (formats : List TextureFormat) (surfaces : List (Nat × SurfaceData))
    (w : ExtractedWindow) (s1 : List (Nat × SurfaceData)) (d : SurfaceData)
    (n : Nat)
    (hrun : ensure_surface sid formats surfaces w = some (s1, d, n)) :
    n ≤ 1
    ∧ (surfaces.lookup w.entity = none → n = 1)
    ∧ ensure_surface sid2 formats s1 w = some (s1, d, 0) := by
  unfold ensure_surface at hrun ⊢
  cases hlook : surfaces.lookup w.entity with
  | some data =>
    rw [hlook] at hrun
    obtain ⟨h1, h2, h3⟩ : s1 = surfaces ∧ data = d ∧ n = 0 := by
      cases hrun
      exact ⟨rfl, rfl, rfl⟩
    subst h1 h2 h3
    refine ⟨by omega, ?_, ?_⟩
    · intro hc
      exact absurd hc (by simp)
    · rw [hlook]
  | none =>
    rw [hlook] at hrun
    cases hcreate : create_surface_data sid formats w with
    | none => rw [hcreate] at hrun; cases hrun
    | some data =>
      rw [hcreate] at hrun
      obtain ⟨h1, h2, h3⟩ :
          s1 = (w.entity, data) :: surfaces ∧ data = d ∧ n = 1 := by
        cases hrun
        exact ⟨rfl, rfl, rfl⟩
      subst h2 h3
      subst h1
      refine ⟨by omega, fun _ => rfl, ?_⟩
      simp [List.lookup]



/-- C9 witness: from an empty registry, the first call creates exactly one
surface and a second call returns the same entry with zero creations. -/
theorem ensure_surface_idempotent_witness :
    (1 : Nat) ≤ 1
    ∧ (([] : List (Nat × SurfaceData)).lookup wSurvivor.entity = none →
        (1 : Nat) = 1)
    ∧ ensure_surface 4 [.Bgra8UnormSrgb] sampleRegistry wSurvivor
        = some (sampleRegistry, sampleSurfaceData, 0) :=
  ensure_surface_idempotent 3 4 [.Bgra8UnormSrgb] [] wSurvivor
    sampleRegistry sampleSurfaceData 1 (by decide)

/-- C10: when `size_changed` or `present_mode_changed` holds, the
reconfiguration step rewrites only the width, height and present mode of the
stored configuration and reapplies it; format, usage, alpha mode, extra view
formats, buffering depth and the surface object are unchanged. -/
theorem reconfigure_updates_only_size_and_mode (w : ExtractedWindow)
    (data : SurfaceData)
    (hchanged : w.size_changed = true ∨ w.present_mode_changed = true) :
    (reconfigure_if_changed w data).2 = true
    ∧ (reconfigure_if_changed w data).1.configuration.width = w.physical_width
    ∧ (reconfigure_if_changed w data).1.configuration.height = w.physical_height
    ∧ (reconfigure_if_changed w data).1.configuration.present_mode
        = presentModeToWgpu w.present_mode
    ∧ (reconfigure_if_changed w data).1.configuration.format
        = data.configuration.format
    ∧ (reconfigure_if_changed w data).1.configuration.alpha_mode
        = data.configuration.alpha_mode
    ∧ (reconfigure_if_changed w data).1.configuration.usage
        = data.configuration.usage
    ∧ (reconfigure_if_changed w data).1.configuration.view_formats
        = data.configuration.view_formats
    ∧ (reconfigure_if_changed w data).1.configuration.desired_maximum_frame_latency
        = data.configuration.desired_maximum_frame_latency
    ∧ (reconfigure_if_changed w data).1.surface = data.surface := by
  have hcond : (w.size_changed || w.present_mode_changed) = true := by
    rcases hchanged with h | h <;> simp [h]
  unfold reconfigure_if_changed
  rw [if_pos hcond]
  exact ⟨rfl, rfl, rfl, rfl, rfl, rfl, rfl, rfl, rfl, rfl⟩


/-- C10 witness: a concrete resized window reconfigures to 1024x768 keeping
the other configuration fields. -/
theorem reconfigure_updates_only_size_and_mode_witness :
    wResized.size_changed = true
    ∧ (reconfigure_if_changed wResized
        ⟨9, build_configuration .Bgra8UnormSrgb wSurvivor⟩).1.configuration.width
        = 1024 := by
  refine ⟨by decide, ?_⟩
  exact (reconfigure_updates_only_size_and_mode wResized
    ⟨9, build_configuration .Bgra8UnormSrgb wSurvivor⟩ (Or.inl (by decide))).2.1

/-- C2: on a "surface outdated" acquisition failure the step reconfigures the
surface exactly once with the entry's currently stored configuration and
retries acquisition exactly once: a successful retry stores the texture and
its view, while a failed retry (any error) leaves the snapshot unchanged —
no texture stored, no panic — and skips the window. -/
theorem prepare_outdated_retries_once (isLinux vendorMatch : Bool)
    (sd : SurfaceData) (w : ExtractedWindow) :
    (∀ frame : Frame,
      prepare_window isLinux vendorMatch (some sd)
          (.error .Outdated) (.ok frame) w =
        .ok ⟨{ w.set_swapchain_texture frame with
                 swap_chain_texture_format := some sd.configuration.format },
             [sd.configuration]⟩)
    ∧ (∀ e : SurfaceError,
        prepare_window isLinux vendorMatch (some sd)
            (.error .Outdated) (.error e) w =
          .ok ⟨w, [sd.configuration]⟩) :=
  ⟨fun _ => rfl, fun _ => rfl⟩

/-- C3: a "timeout" acquisition failure is swallowed (no panic, no texture
stored) exactly when running on Linux with a matching adapter vendor; with a
non-matching vendor on Linux, or on any other platform, it panics. -/
theorem prepare_timeout_policy (sd : SurfaceData) (w : ExtractedWindow)
    (retry : Except SurfaceError Frame) :
    prepare_window true true (some sd) (.error .Timeout) retry w =
      .ok ⟨{ w with swap_chain_texture_format := some sd.configuration.format },
           []⟩
    ∧ prepare_window true false (some sd) (.error .Timeout) retry w =
        .error .panicked
    ∧ (∀ vendorMatch : Bool,
        prepare_window false vendorMatch (some sd) (.error .Timeout) retry w =
          .error .panicked) :=
  ⟨rfl, rfl, fun vendorMatch => by cases vendorMatch <;> rfl⟩


/-- C6 counterexample: when the outdated-path retry fails, the `continue`
skips the trailing format write, so the snapshot's swapchain texture format
is *not* the configured format (it stays `none` for a fresh window). -/
theorem prepare_format_recorded_counterexample :
    prepare_window true true (some sampleSurfaceData)
        (.error .Outdated) (.error .Timeout) wFresh =
      .ok ⟨wFresh, [sampleSurfaceData.configuration]⟩
    ∧ ¬(wFresh.swap_chain_texture_format
          = some sampleSurfaceData.configuration.format) := by
  exact ⟨rfl, by decide⟩

/-- C6 amended: the configured format is recorded on the snapshot on
successful acquisition, on a successful outdated-retry, and on an ignorably
swallowed Linux timeout — but not when the outdated retry fails, where the
window is skipped with its snapshot unchanged. -/
theorem prepare_records_format (isLinux vendorMatch : Bool) (sd : SurfaceData)
    (w : ExtractedWindow) (frame : Frame) :
    ((prepare_window isLinux vendorMatch (some sd) (.ok frame)
        (.ok frame) w).map
          (fun o => o.window.swap_chain_texture_format)
        = .ok (some sd.configuration.format))
    ∧ ((prepare_window isLinux vendorMatch (some sd) (.error .Outdated)
          (.ok frame) w).map
            (fun o => o.window.swap_chain_texture_format)
          = .ok (some sd.configuration.format))
    ∧ ((prepare_window true true (some sd) (.error .Timeout)
          (.ok frame) w).map
            (fun o => o.window.swap_chain_texture_format)
          = .ok (some sd.configuration.format))
    ∧ (∀ e : SurfaceError,
        prepare_window isLinux vendorMatch (some sd) (.error .Outdated)
            (.error e) w =
          .ok ⟨w, [sd.configuration]⟩) :=
  ⟨rfl, rfl, rfl, fun _ => rfl⟩

theorem clear_passes_cons_serviced (v : ExtractedWindow)
    (rest : List ExtractedWindow) (cw : List Nat)
    (h : cw.contains v.entity = true) :
    clear_passes (v :: rest) cw = clear_passes rest cw := by
  simp only [clear_passes, List.filterMap_cons, h, if_true]

theorem clear_passes_cons_no_view (v : ExtractedWindow)
    (rest : List ExtractedWindow) (cw : List Nat)
    (h1 : cw.contains v.entity = false)
    (h2 : v.swap_chain_texture_view = none) :
    clear_passes (v :: rest) cw = clear_passes rest cw := by
  simp only [clear_passes, List.filterMap_cons, h1, h2, Bool.false_eq_true,
    if_false]

theorem clear_passes_cons_cleared (v : ExtractedWindow)
    (rest : List ExtractedWindow) (cw : List Nat) (view : TextureView)
    (h1 : cw.contains v.entity = false)
    (h2 : v.swap_chain_texture_view = some view) :
    clear_passes (v :: rest) cw = ⟨v.entity, view⟩ :: clear_passes rest cw := by
  simp only [clear_passes, List.filterMap_cons, h1, h2, Bool.false_eq_true,
    if_false]

theorem clear_passes_entity_mem (cw : List Nat)
    (windows : List ExtractedWindow) (p : ClearPass)
    (hp : p ∈ clear_passes windows cw) :
    p.entity ∈ windows.map fun w => w.entity := by
  simp only [clear_passes, List.mem_filterMap] at hp
  obtain ⟨w, hw, hfw⟩ := hp
  have hpw : p.entity = w.entity := by
    split at hfw
    · cases hfw
    · split at hfw
      · cases hfw
      · cases hfw
        rfl
  rw [hpw]
  exact List.mem_map_of_mem _ hw

theorem clear_passes_countP (cw : List Nat) (windows : List ExtractedWindow)
    (hnodup : (windows.map fun w => w.entity).Nodup)
    (w : ExtractedWindow) (hw : w ∈ windows) :
    ((clear_passes windows cw).countP fun p => p.entity == w.entity) =
      if cw.contains w.entity then 0
      else match w.swap_chain_texture_view with
           | none => 0
           | some _ => 1 := by
  induction windows with
  | nil => cases hw
  | cons v rest ih =>
    rw [List.map_cons, List.nodup_cons] at hnodup
    obtain ⟨hvnotin, hnodup_rest⟩ := hnodup
    rcases List.mem_cons.mp hw with hwv | hwrest
    · subst hwv
      have hrest0 :
          ((clear_passes rest cw).countP fun p => p.entity == w.entity) = 0 := by
        apply List.countP_eq_zero.mpr
        intro p hp
        have hpe := clear_passes_entity_mem cw rest p hp
        intro heq
        have hpq : p.entity = w.entity := eq_of_beq heq
        rw [hpq] at hpe
        exact hvnotin hpe
      cases hc : cw.contains w.entity with
      | true =>
        rw [clear_passes_cons_serviced w rest cw hc, hrest0]
        rfl
      | false =>
        cases hv : w.swap_chain_texture_view with
        | none =>
          rw [clear_passes_cons_no_view w rest cw hc hv, hrest0]
          rfl
        | some view =>
          rw [clear_passes_cons_cleared w rest cw view hc hv,
            List.countP_cons, hrest0]
          simp
    · have hwent : w.entity ∈ rest.map fun v => v.entity :=
        List.mem_map_of_mem _ hwrest
      have hvne : (v.entity == w.entity) = false := by
        cases h : v.entity == w.entity
        · rfl
        · have : v.entity = w.entity := eq_of_beq h
          rw [this] at hvnotin
          exact absurd hwent hvnotin
      have hih := ih hnodup_rest hwrest
      cases hc : cw.contains v.entity with
      | true => rw [clear_passes_cons_serviced v rest cw hc, hih]
      | false =>
        cases hv : v.swap_chain_texture_view with
        | none => rw [clear_passes_cons_no_view v rest cw hc hv, hih]
        | some view =>
          rw [clear_passes_cons_cleared v rest cw view hc hv,
            List.countP_cons, hih]
          simp [hvne]




/-- C1 counterexample: two cameras may legally target the same window; then
the window (with its texture view set) is serviced by two cameras, not
exactly one, and receives zero clear passes — so "serviced by exactly one
camera or exactly one clear pass" fails as stated. -/
theorem camera_driver_exactly_one_counterexample :
    camera_driver_run [wC1] [some camA, some camB] (fun _ => true) =
      .ok ([7, 7], [])
    ∧ wC1.swap_chain_texture_view.isSome = true
    ∧ ¬((([7, 7] : List Nat).count 7 = 1)
        ∨ ((([] : List ClearPass).countP fun p => p.entity == 7) = 1)) := by
  refine ⟨rfl, rfl, ?_⟩
  decide

/-- C1 amended: after a camera dispatch pass that completes without error,
every mirror window whose texture view is set is either serviced by at least
one camera (and receives no clear pass) or receives exactly one clear pass
(and is serviced by no camera) — never both, never neither; windows whose
view is absent receive no clear pass. -/
theorem camera_driver_serviced_or_cleared (windows : List ExtractedWindow)
    (cameras : List (Option ExtractedCamera)) (graph_ok : Nat → Bool)
    (cw : List Nat) (clears : List ClearPass)
    (hrun : camera_driver_run windows cameras graph_ok = .ok (cw, clears))
    (hnodup : (windows.map fun w => w.entity).Nodup)
    (w : ExtractedWindow) (hw : w ∈ windows) :
    (w.swap_chain_texture_view.isSome = true →
      ((cw.contains w.entity = true
          ∧ (clears.countP fun p => p.entity == w.entity) = 0)
        ∨ (cw.contains w.entity = false
            ∧ (clears.countP fun p => p.entity == w.entity) = 1)))
    ∧ (w.swap_chain_texture_view = none →
        (clears.countP fun p => p.entity == w.entity) = 0) := by
  unfold camera_driver_run at hrun
  cases hd : dispatch_cameras windows graph_ok cameras [] with
  | error e => rw [hd] at hrun; cases hrun
  | ok cw0 =>
    rw [hd] at hrun
    obtain ⟨h1, h2⟩ : cw = cw0 ∧ clears = clear_passes windows cw0 := by
      cases hrun
      exact ⟨rfl, rfl⟩
    subst h2
    subst h1
    have hcount := clear_passes_countP cw windows hnodup w hw
    constructor
    · intro hview
      cases hc : cw.contains w.entity with
      | true =>
        left
        refine ⟨rfl, ?_⟩
        rw [hcount, hc]
        rfl
      | false =>
        right
        refine ⟨rfl, ?_⟩
        rw [hcount, hc]
        cases hv : w.swap_chain_texture_view with
        | none => rw [hv] at hview; cases hview
        | some view => rfl
    · intro hview
      rw [hcount, hview]
      cases hc : cw.contains w.entity <;> rfl

/-- C1 witness: one window with a texture view and no cameras — the run
succeeds and the window receives exactly one clear pass and no camera
service. -/
theorem camera_driver_serviced_or_cleared_witness :
    (wC1.swap_chain_texture_view.isSome = true →
      ((([] : List Nat).contains wC1.entity = true
          ∧ ((clear_passes [wC1] []).countP fun p => p.entity == wC1.entity)
              = 0)
        ∨ (([] : List Nat).contains wC1.entity = false
            ∧ ((clear_passes [wC1] []).countP fun p => p.entity == wC1.entity)
                = 1)))
    ∧ (wC1.swap_chain_texture_view = none →
        ((clear_passes [wC1] []).countP fun p => p.entity == wC1.entity) = 0) :=
  camera_driver_serviced_or_cleared [wC1] [] (fun _ => true) []
    (clear_passes [wC1] []) rfl (by decide) wC1 (by decide)

end BevyRender
